import Mathlib

/-!
Verification of the tape-player backend (server.js) and its browser player
(the unnamed frontend script) against the natural-language specification.

The JavaScript is embedded shallowly:
- JSON values reaching the session handlers are modelled by `JVal`
  (JSON cannot carry `NaN`, so a numeric value is a rational);
- the mutable `userSession` object is threaded explicitly through the
  handler functions, which return (response, new session);
- the filesystem and the `music-metadata` library are oracles bundled in
  `FsEnv`: `parse` is `mm.parseFile` (an `Except` models a rejected
  promise), `fsize` is `fs.statSync(..).size`, `enc` is
  `encodeURIComponent`, and string-to-number coercion (never exercised by
  the claims) is an arbitrary `strNum : String → Option ℚ` parameter,
  `none` standing for `NaN`;
- the in-memory `metadataCache` object is an association list keyed by
  file path, assignment prepending (lookup takes the first match).
-/

namespace TapePlayer

/-- A JSON-ish JavaScript value as the session endpoints see it:
`undef` is what destructuring a missing body field yields. -/
inductive JVal where
  | undef
  | null
  | num (q : ℚ)
  | str (s : String)
  | bool (b : Bool)
  deriving DecidableEq

/-- JavaScript truthiness of a `JVal` (a JSON number is never `NaN`). -/
def JVal.truthy : JVal → Bool
  | .undef => false
  | .null => false
  | .num q => q != 0
  | .str s => s != ""
  | .bool b => b

/-- JavaScript `ToNumber`, `none` standing for `NaN`; coercion of strings
is left abstract in `strNum` since no handler comparison the claims
exercise receives a string. -/
def jsToNumber (strNum : String → Option ℚ) : JVal → Option ℚ
  | .undef => none
  | .null => some 0
  | .num q => some q
  | .str s => strNum s
  | .bool b => some (if b then 1 else 0)

/-- JavaScript `v < bound` with a number literal on the right:
`NaN` compares false. -/
def jsltB (strNum : String → Option ℚ) (v : JVal) (bound : ℚ) : Bool :=
  match jsToNumber strNum v with
  | none => false
  | some q => decide (q < bound)

/-- JavaScript `v > bound` with a number literal on the right:
`NaN` compares false. -/
def jsgtB (strNum : String → Option ℚ) (v : JVal) (bound : ℚ) : Bool :=
  match jsToNumber strNum v with
  | none => false
  | some q => decide (bound < q)

/-- The server's `userSession` object (server.js lines 38-45). -/
structure Session where
  currentSide : JVal
  currentTrackId : JVal
  currentTime : JVal
  volume : JVal
  tapeMode : JVal
  isPlaying : JVal
  deriving DecidableEq

/-- The initial (and reset) session value. -/
def initialSession : Session :=
  { currentSide := JVal.str ("A"), currentTrackId := JVal.null,
    currentTime := JVal.num 0, volume := JVal.num 75,
    tapeMode := JVal.bool true, isPlaying := JVal.bool false }

/-- The destructured body of a `POST /api/session` request: a field
absent from the JSON body destructures to `undef`. -/
structure SessionBody where
  currentSide : JVal := JVal.undef
  currentTrackId : JVal := JVal.undef
  currentTime : JVal := JVal.undef
  volume : JVal := JVal.undef
  tapeMode : JVal := JVal.undef
  isPlaying : JVal := JVal.undef

/-- Response of `POST /api/session`. -/
structure PostResp where
  success : Bool
  message : String
  session : Session
  deriving DecidableEq

/-- The `POST /api/session` handler (server.js lines 208-223):
`currentSide` is guarded by truthiness, the five other fields by a
strict `!== undefined` check; the response carries the updated session. -/
def postSession (body : SessionBody) (s : Session) : PostResp × Session :=
  let s1 := if body.currentSide.truthy then { s with currentSide := body.currentSide } else s
  let s2 := if body.currentTrackId ≠ JVal.undef then { s1 with currentTrackId := body.currentTrackId } else s1
  let s3 := if body.currentTime ≠ JVal.undef then { s2 with currentTime := body.currentTime } else s2
  let s4 := if body.volume ≠ JVal.undef then { s3 with volume := body.volume } else s3
  let s5 := if body.tapeMode ≠ JVal.undef then { s4 with tapeMode := body.tapeMode } else s4
  let s6 := if body.isPlaying ≠ JVal.undef then { s5 with isPlaying := body.isPlaying } else s5
  ({ success := true, message := ("Session saved"), session := s6 }, s6)

/-- Response of `PUT /api/session/volume`: either `res.status(400).json`
with an error message, or `res.json` (status 200) with the stored value. -/
inductive VolumeResp where
  | error (status : ℕ) (msg : String)
  | ok (volume : JVal)
  deriving DecidableEq

/-- The `PUT /api/session/volume` handler (server.js lines 237-246). -/
def putVolume (strNum : String → Option ℚ) (volume : JVal) (s : Session) : VolumeResp × Session :=
  if jsltB strNum volume 0 || jsgtB strNum volume 100 then
    (VolumeResp.error 400 ("Volume must be between 0 and 100"), s)
  else
    let s2 := { s with volume := volume }
    (VolumeResp.ok s2.volume, s2)

/-- The fixed audio-extension allow-list (server.js line 71). -/
def audioExtensions : List String :=
  [".mp3", ".wav", ".ogg", ".m4a", ".flac"]

/-- The suffix of a character list starting at its last dot, if any. -/
def extSplit : List Char → Option (List Char)
  | [] => none
  | c :: cs =>
    match extSplit cs with
    | some e => some e
    | none => if c = '.' then some (c :: cs) else none

/-- Node's `path.extname` on a basename: the extension runs from the
last dot to the end; a name without a dot, or whose only dot is the
leading character (a hidden file), has extension "". -/
def extname (f : String) : String :=
  match f.data with
  | [] => ""
  | _ :: cs =>
    match extSplit cs with
    | some e => String.mk e
    | none => ""

/-- JavaScript `toLowerCase`, written over the character list so that it reduces
definitionally (core's `String.toLower` recurses on byte positions). -/
def lowerStr (s : String) : String :=
  String.mk (s.data.map Char.toLower)

/-- JavaScript `trim`: drop whitespace from both ends. -/
def trimStr (s : String) : String :=
  String.mk (((s.data.dropWhile Char.isWhitespace).reverse.dropWhile Char.isWhitespace).reverse)

/-- Does a directory entry pass the case-insensitive extension filter
(server.js line 82)? -/
def isAudio (f : String) : Bool :=
  audioExtensions.contains (lowerStr (extname f))

/-- The basename with its extension stripped:
`path.basename(file, path.extname(file))`. -/
def basenameNoExt (f : String) : String :=
  String.mk (f.data.take (f.data.length - (extname f).data.length))

/-- The filename-derived default title (server.js lines 91-94): strip
the extension, replace every underscore and dash by a space, and trim. -/
def defaultTitle (f : String) : String :=
  trimStr (String.mk ((basenameNoExt f).data.map (fun c => if c = '_' ∨ c = '-' then ' ' else c)))

/-- What a successful `mm.parseFile` exposes of `metadata.common`. -/
structure Tags where
  title : Option String
  artist : Option String
  album : Option String
  hasPicture : Bool
  deriving DecidableEq

/-- One entry of the in-memory `metadataCache` (server.js lines 126-131). -/
structure CacheEntry where
  title : String
  artist : String
  album : String
  albumCover : Option String
  deriving DecidableEq

/-- The `metadataCache` object: an association list, assignment
prepending and lookup taking the first match. -/
def Cache := List (String × CacheEntry)

/-- Property read `metadataCache[filePath]`. -/
def cacheFind (c : Cache) (key : String) : Option CacheEntry :=
  (c.find? (fun kv => kv.1 = key)).map (fun kv => kv.2)

/-- Property write `metadataCache[filePath] = entry`. -/
def cacheInsert (c : Cache) (key : String) (e : CacheEntry) : Cache :=
  (key, e) :: c

/-- The I/O surface the scanner touches, as oracles: `parse` is
`mm.parseFile` (`Except.error` a rejected promise), `fsize` is
`fs.statSync(..).size` and `enc` is `encodeURIComponent`. -/
structure FsEnv where
  parse : String → Except Unit Tags
  fsize : String → ℕ
  enc : String → String

/-- JavaScript `a || b` on strings: the empty string is falsy. -/
def strOr (a b : String) : String :=
  if a = "" then b else a

/-- The `if (metadata.common.x) value = metadata.common.x` pattern:
an absent or empty tag keeps the default. -/
def optOr (m : Option String) (d : String) : String :=
  match m with
  | some s => if s ≠ "" then s else d
  | none => d

/-- Truthiness of an optional tag string. -/
def optTruthy : Option String → Bool
  | some s => s ≠ ""
  | none => false

/-- One track of a scan result (server.js lines 137-147). -/
structure Track where
  id : String
  title : String
  artist : String
  album : String
  filename : String
  url : String
  albumCover : Option String
  size : ℕ
  trackNumber : ℕ
  deriving DecidableEq

/-- The function `extractAlbumCover` (server.js lines 51-67): re-parse the file and,
when a first embedded picture exists, write it out and return its URL;
any error yields `null`. -/
def extractAlbumCover (parse : String → Except Unit Tags) (filePath trackId : String) :
    Option String :=
  match parse filePath with
  | Except.ok tags =>
      if tags.hasPicture then some (("/covers/") ++ trackId ++ (".jpg")) else none
  | Except.error _ => none

/-- The body of the scan loop for one audio file (server.js lines
86-147): build the default track, then overlay cached metadata on a
cache hit, or parse the file and populate the cache on a miss; a parse
error leaves the defaults and caches nothing. -/
def processFile (env : FsEnv) (cache : Cache) (folderPath side : String)
    (index : ℕ) (file : String) : Track × Cache :=
  let filePath := folderPath ++ ("/") ++ file
  let trackId := side ++ ("-") ++ Nat.repr index
  let dTitle := defaultTitle file
  let base : Track :=
    { id := trackId, title := dTitle, artist := ("Unknown Artist"),
      album := ("Unknown Album"), filename := file,
      url := ("/musics/side ") ++ lowerStr side ++ ("/") ++ env.enc file,
      albumCover := none, size := env.fsize filePath, trackNumber := index + 1 }
  match cacheFind cache filePath with
  | some cached =>
      ({ base with
          title := strOr cached.title dTitle,
          artist := strOr cached.artist ("Unknown Artist"),
          album := strOr cached.album ("Unknown Album"),
          albumCover := cached.albumCover }, cache)
  | none =>
    match env.parse filePath with
    | Except.error _ => (base, cache)
    | Except.ok tags =>
      let title := optOr tags.title dTitle
      let artist := optOr tags.artist ("Unknown Artist")
      let album := optOr tags.album ("Unknown Album")
      let cover := extractAlbumCover env.parse filePath trackId
      ({ base with title := title, artist := artist, album := album, albumCover := cover },
        cacheInsert cache filePath { title := title, artist := artist, album := album, albumCover := cover })

/-- The indexed loop of `getSongsFromFolder` (server.js lines 79-148):
`index` runs over the raw listing and non-audio entries are skipped by
`continue`, which still advances `index`. -/
def scanGo (env : FsEnv) (folderPath side : String) :
    ℕ → List String → Cache → List Track × Cache
  | _, [], cache => ([], cache)
  | index, file :: fs, cache =>
    if isAudio file then
      let r := processFile env cache folderPath side index file
      let rest := scanGo env folderPath side (index + 1) fs r.2
      (r.1 :: rest.1, rest.2)
    else
      scanGo env folderPath side (index + 1) fs cache

/-- The function `getSongsFromFolder` (server.js lines 73-151): a missing directory
(`listing = none`) yields the empty list, otherwise the indexed loop. -/
def getSongsFromFolder (env : FsEnv) (listing : Option (List String))
    (folderPath side : String) (cache : Cache) : List Track × Cache :=
  match listing with
  | none => ([], cache)
  | some files => scanGo env folderPath side 0 files cache

/-- The function `loadMusicFiles` (server.js lines 70-157): scan side A, then side B
with the cache the first scan left. -/
def loadMusicFiles (env : FsEnv) (listingA listingB : Option (List String))
    (cache : Cache) : (List Track × List Track) × Cache :=
  let ra := getSongsFromFolder env listingA ("musics/side a") ("A") cache
  let rb := getSongsFromFolder env listingB ("musics/side b") ("B") ra.2
  ((ra.1, rb.1), rb.2)

/-- An environment whose files carry no readable tags: every parse
fails, sizes are 0 and percent-encoding is the identity. -/
def envNoTags : FsEnv :=
  { parse := fun _ => Except.error (), fsize := fun _ => 0, enc := fun s => s }

/-- JavaScript `toUpperCase` over the character list (see `lowerStr`). -/
def upperStr (s : String) : String :=
  String.mk (s.data.map Char.toUpper)

/-- Modelled from the spec: the spec's Library Scanner section assigns
`id = "{side}-{zero-based index}"` with the index taken in the list
obtained by filtering the listing to the audio allow-list, so the ids of
a scan would be `side-0 .. side-(k-1)` for `k` surviving files. This
definition follows the spec's words and is compared against the scan the
source performs. -/
def specFilteredIds (files : List String) (side : String) : List String :=
  (List.range (files.filter (fun f => isAudio f)).length).map
    (fun i => side ++ ("-") ++ Nat.repr i)

/-- Response of `GET /api/health` (server.js lines 162-170). -/
structure HealthResp where
  status : String
  timestamp : String
  sideA : String
  sideB : String
  deriving DecidableEq

/-- The `GET /api/health` handler: it has no try/catch, so when the
awaited `loadMusicFiles` fails the rejection escapes the handler and no
response is produced (`none`). -/
def healthRoute (now : String) (scan : Except Unit (List Track × List Track)) :
    Option HealthResp :=
  match scan with
  | Except.ok pl =>
      some { status := ("Server is running!"), timestamp := now,
             sideA := Nat.repr pl.1.length ++ (" tracks"),
             sideB := Nat.repr pl.2.length ++ (" tracks") }
  | Except.error _ => none

/-- Body of a `GET /api/playlists` response. -/
inductive PlaylistsResp where
  | ok (sideA sideB : List Track)
  | err (error : String)
  deriving DecidableEq

/-- The `GET /api/playlists` handler (server.js lines 173-181): the
try/catch converts a scan failure into a 500 response. -/
def playlistsRoute (scan : Except Unit (List Track × List Track)) :
    Option (ℕ × PlaylistsResp) :=
  match scan with
  | Except.ok pl => some (200, PlaylistsResp.ok pl.1 pl.2)
  | Except.error _ => some (500, PlaylistsResp.err ("Failed to load playlists"))

/-- Body of a `GET /api/playlists/:side` response. -/
inductive SideResp where
  | ok (side : String) (tracks : List Track)
  | err (error : String)
  deriving DecidableEq

/-- The `GET /api/playlists/:side` handler (server.js lines 184-200):
uppercase the parameter, answer the matching side, 404 on any other
value; the try/catch converts a scan failure into a 500 response. -/
def sideRoute (sideParam : String) (scan : Except Unit (List Track × List Track)) :
    Option (ℕ × SideResp) :=
  match scan with
  | Except.error _ => some (500, SideResp.err ("Failed to load side"))
  | Except.ok pl =>
      let side := upperStr sideParam
      if side = "A" then some (200, SideResp.ok ("A") pl.1)
      else if side = "B" then some (200, SideResp.ok ("B") pl.2)
      else some (404, SideResp.err ("Side not found. Use A or B"))

/-- Body of a `POST /api/refresh` response. -/
inductive RefreshResp where
  | ok (message : String) (sideA sideB : ℕ)
  | err (error : String)
  deriving DecidableEq

/-- The error-path view of `POST /api/refresh` (server.js lines
249-263): the try/catch converts a scan failure into a 500 response. -/
def refreshRoute (scan : Except Unit (List Track × List Track)) :
    Option (ℕ × RefreshResp) :=
  match scan with
  | Except.ok pl => some (200, RefreshResp.ok ("Playlists refreshed") pl.1.length pl.2.length)
  | Except.error _ => some (500, RefreshResp.err ("Failed to refresh playlists"))

/-- The success path of `POST /api/refresh` as a state transformer on
the cache: `metadataCache = {}` first, then a full rescan, so the input
cache is never consulted. -/
def refreshHandler (env : FsEnv) (listingA listingB : Option (List String))
    (_cache : Cache) : RefreshResp × Cache :=
  let cleared : Cache := []
  let r := loadMusicFiles env listingA listingB cleared
  (RefreshResp.ok ("Playlists refreshed") r.1.1.length r.1.2.length, r.2)

/-- The entry a cache hit reproduces verbatim: its `artist`/`album` are
never empty, and its `title` is empty only when the filename-derived
default for the same file is empty as well (so the `||` fallbacks on a
hit cannot alter what was stored). Every entry the scanner stores for a
file satisfies this. -/
def wfEntry (e : CacheEntry) (file : String) : Prop :=
  (e.title ≠ "" ∨ defaultTitle file = "") ∧ e.artist ≠ "" ∧ e.album ≠ ""

/-- The browser player's module-level playback state (frontend part_000
lines 5-14), restricted to the fields the playback logic touches. -/
structure PlayerState where
  sideATracks : List Track
  sideBTracks : List Track
  currentSide : String
  currentTrackIndex : ℕ
  isPlaying : Bool
  tapeMode : Bool
  savedTimestamp : ℚ
  audioCurrentTime : ℚ
  deriving DecidableEq

/-- The function `getCurrentPlaylist` (frontend lines 255-257). -/
def getCurrentPlaylist (st : PlayerState) : List Track :=
  if st.currentSide = "A" then st.sideATracks else st.sideBTracks

/-- The function `loadTrack` (frontend lines 260-292), restricted to the playback
state: an out-of-range index returns immediately, otherwise the current
track index is set. -/
def loadTrack (st : PlayerState) (index : ℕ) : PlayerState :=
  if index < (getCurrentPlaylist st).length then
    { st with currentTrackIndex := index }
  else st

/-- The function `switchSide` (frontend lines 346-365): blocked while tape mode is
active and playback is running; otherwise the current timestamp is
saved, the side is set and the track index reset to 0 (loading track 0
when the new side is non-empty). -/
def switchSide (st : PlayerState) (side : String) : PlayerState :=
  if st.tapeMode && st.isPlaying then st
  else
    let st1 := { st with savedTimestamp := st.audioCurrentTime,
                         currentSide := side, currentTrackIndex := 0 }
    if 0 < (getCurrentPlaylist st1).length then loadTrack st1 0 else st1

/-- The id strings a scan of one listing produces, as a function of the
listing and the side alone. -/
def idsOfListing (listing : Option (List String)) (side : String) : List String :=
  match listing with
  | none => []
  | some files =>
      ((List.enumFrom 0 files).filter (fun pr => isAudio pr.2)).map
        (fun pr => side ++ ("-") ++ Nat.repr pr.1)

/-- The digits read back as a number: the left inverse of
`Nat.toDigits 10` used to prove decimal representations unique. -/
def digitsVal (cs : List Char) : ℕ :=
  cs.foldl (fun a c => a * 10 + (c.toNat - ('0').toNat)) 0

theorem postSession_currentSide (b : SessionBody) (s : Session) :
    (postSession b s).2.currentSide =
      if b.currentSide.truthy then b.currentSide else s.currentSide := by
  unfold postSession
  dsimp only
  split_ifs <;> rfl

theorem postSession_currentTrackId (b : SessionBody) (s : Session) :
    (postSession b s).2.currentTrackId =
      if b.currentTrackId ≠ JVal.undef then b.currentTrackId else s.currentTrackId := by
  unfold postSession
  dsimp only
  split_ifs <;> rfl

theorem postSession_currentTime (b : SessionBody) (s : Session) :
    (postSession b s).2.currentTime =
      if b.currentTime ≠ JVal.undef then b.currentTime else s.currentTime := by
  unfold postSession
  dsimp only
  split_ifs <;> rfl

theorem postSession_volume (b : SessionBody) (s : Session) :
    (postSession b s).2.volume =
      if b.volume ≠ JVal.undef then b.volume else s.volume := by
  unfold postSession
  dsimp only
  split_ifs <;> rfl

theorem postSession_tapeMode (b : SessionBody) (s : Session) :
    (postSession b s).2.tapeMode =
      if b.tapeMode ≠ JVal.undef then b.tapeMode else s.tapeMode := by
  unfold postSession
  dsimp only
  split_ifs <;> rfl

theorem postSession_isPlaying (b : SessionBody) (s : Session) :
    (postSession b s).2.isPlaying =
      if b.isPlaying ≠ JVal.undef then b.isPlaying else s.isPlaying := by
  unfold postSession
  dsimp only
  split_ifs <;> rfl

theorem postSession_resp (b : SessionBody) (s : Session) :
    (postSession b s).1 =
      { success := true, message := ("Session saved"), session := (postSession b s).2 } := by
  unfold postSession
  dsimp only

/-- C3: for every session state and every partial `POST /api/session`
update, each of the six session fields that is absent from the request
body (destructured to `undef`) keeps exactly its prior value, the
response reports the updated session, and posting `{volume: 40}` after a
prior update that set side "B" yields a session with side "B" and
volume 40. -/
theorem postSession_absent_fields_unchanged_c3 :
    ∀ (b : SessionBody) (s : Session),
      (b.currentSide = JVal.undef → (postSession b s).2.currentSide = s.currentSide) ∧
      (b.currentTrackId = JVal.undef → (postSession b s).2.currentTrackId = s.currentTrackId) ∧
      (b.currentTime = JVal.undef → (postSession b s).2.currentTime = s.currentTime) ∧
      (b.volume = JVal.undef → (postSession b s).2.volume = s.volume) ∧
      (b.tapeMode = JVal.undef → (postSession b s).2.tapeMode = s.tapeMode) ∧
      (b.isPlaying = JVal.undef → (postSession b s).2.isPlaying = s.isPlaying) ∧
      (postSession b s).1.session = (postSession b s).2 ∧
      (postSession b s).1.success = true ∧
      ((postSession ({ volume := JVal.num 40 } : SessionBody)
          (postSession ({ currentSide := JVal.str ("B") } : SessionBody) initialSession).2).2.currentSide
          = JVal.str ("B") ∧
       (postSession ({ volume := JVal.num 40 } : SessionBody)
          (postSession ({ currentSide := JVal.str ("B") } : SessionBody) initialSession).2).2.volume
          = JVal.num 40) := by
  intro b s
  refine ⟨?_, ?_, ?_, ?_, ?_, ?_, ?_, ?_, ?_, ?_⟩
  · intro h; rw [postSession_currentSide, h]; rfl
  · intro h; rw [postSession_currentTrackId, h]; simp
  · intro h; rw [postSession_currentTime, h]; simp
  · intro h; rw [postSession_volume, h]; simp
  · intro h; rw [postSession_tapeMode, h]; simp
  · intro h; rw [postSession_isPlaying, h]; simp
  · rw [postSession_resp]
  · rw [postSession_resp]
  · decide
  · decide

/-- C4: for a numeric value `v` sent to `PUT /api/session/volume`, the
request is rejected with status 400 and the session's volume left
unchanged exactly when `v` lies outside `[0, 100]`; an in-range value is
accepted and stored as the session volume. -/
theorem putVolume_range_c4 :
    ∀ (strNum : String → Option ℚ) (s : Session) (q : ℚ),
      (putVolume strNum (JVal.num q) s =
          (VolumeResp.error 400 ("Volume must be between 0 and 100"), s) ↔ (q < 0 ∨ 100 < q)) ∧
      ((q < 0 ∨ 100 < q) → (putVolume strNum (JVal.num q) s).2 = s) ∧
      (¬(q < 0 ∨ 100 < q) →
        putVolume strNum (JVal.num q) s = (VolumeResp.ok (JVal.num q), { s with volume := JVal.num q })) := by
  intro strNum s q
  by_cases h : q < 0 ∨ 100 < q
  · refine ⟨⟨fun _ => h, fun _ => ?_⟩, fun _ => ?_, fun hc => absurd h hc⟩ <;>
      · unfold putVolume
        have hb : (jsltB strNum (JVal.num q) 0 || jsgtB strNum (JVal.num q) 100) = true := by
          simp only [jsltB, jsgtB, jsToNumber, Bool.or_eq_true, decide_eq_true_eq]
          exact h
        simp [hb]
  · have hb : (jsltB strNum (JVal.num q) 0 || jsgtB strNum (JVal.num q) 100) = false := by
      simp only [jsltB, jsgtB, jsToNumber, Bool.or_eq_false_iff, decide_eq_false_iff_not]
      push_neg at h
      exact ⟨h.1.not_lt, h.2.not_lt⟩
    refine ⟨⟨fun he => ?_, fun hq => absurd hq h⟩, fun hq => absurd hq h, fun _ => ?_⟩
    · exfalso
      unfold putVolume at he
      rw [hb] at he
      simp at he
    · unfold putVolume
      rw [hb]
      simp

/-- C9: a `PUT /api/session/volume` request whose body has no `volume`
field passes the range check (both comparisons against `undefined` are
false), is answered with success, and overwrites the session's volume
with `undefined`. -/
theorem putVolume_undefined_c9 :
    ∀ (strNum : String → Option ℚ) (s : Session),
      jsltB strNum JVal.undef 0 = false ∧
      jsgtB strNum JVal.undef 100 = false ∧
      putVolume strNum JVal.undef s = (VolumeResp.ok JVal.undef, { s with volume := JVal.undef }) := by
  intro strNum s
  exact ⟨rfl, rfl, rfl⟩

/-- C10: `POST /api/session` updates `currentSide` only when the value
is truthy (a falsy value such as the empty string is silently ignored),
performs no membership check (any truthy string such as "C" is stored),
and updates the five other fields whenever they are not `undefined`:
`currentTrackId` may be set to `null`, and `currentTime`/`volume` accept
any numeric value without range validation. -/
theorem postSession_truthiness_c10 :
    ∀ (s : Session) (v : JVal) (q : ℚ),
      (v.truthy = false → (postSession ({ currentSide := v } : SessionBody) s).2.currentSide = s.currentSide) ∧
      ((postSession ({ currentSide := JVal.str ("") } : SessionBody) s).2.currentSide = s.currentSide) ∧
      ((postSession ({ currentSide := JVal.str ("C") } : SessionBody) s).2.currentSide = JVal.str ("C")) ∧
      ((postSession ({ currentTrackId := JVal.null } : SessionBody) s).2.currentTrackId = JVal.null) ∧
      ((postSession ({ currentTime := JVal.num q } : SessionBody) s).2.currentTime = JVal.num q) ∧
      ((postSession ({ volume := JVal.num q } : SessionBody) s).2.volume = JVal.num q) ∧
      (v ≠ JVal.undef → (postSession ({ currentTrackId := v } : SessionBody) s).2.currentTrackId = v) ∧
      (v ≠ JVal.undef → (postSession ({ currentTime := v } : SessionBody) s).2.currentTime = v) ∧
      (v ≠ JVal.undef → (postSession ({ volume := v } : SessionBody) s).2.volume = v) ∧
      (v ≠ JVal.undef → (postSession ({ tapeMode := v } : SessionBody) s).2.tapeMode = v) ∧
      (v ≠ JVal.undef → (postSession ({ isPlaying := v } : SessionBody) s).2.isPlaying = v) := by
  intro s v q
  refine ⟨?_, ?_, ?_, ?_, ?_, ?_, ?_, ?_, ?_, ?_, ?_⟩
  · intro h; rw [postSession_currentSide]; simp [h]
  · rw [postSession_currentSide]; rfl
  · rw [postSession_currentSide]; rfl
  · rw [postSession_currentTrackId]; rfl
  · rw [postSession_currentTime]; rfl
  · rw [postSession_volume]; rfl
  · intro h; rw [postSession_currentTrackId]; simp [h]
  · intro h; rw [postSession_currentTime]; simp [h]
  · intro h; rw [postSession_volume]; simp [h]
  · intro h; rw [postSession_tapeMode]; simp [h]
  · intro h; rw [postSession_isPlaying]; simp [h]

theorem toDigitsCore_append10 : ∀ (fuel n : ℕ) (ds : List Char),
    Nat.toDigitsCore 10 fuel n ds = Nat.toDigitsCore 10 fuel n [] ++ ds := by
  intro fuel
  induction fuel with
  | zero => intro n ds; simp [Nat.toDigitsCore]
  | succ f ih =>
    intro n ds
    simp only [Nat.toDigitsCore]
    by_cases h : n / 10 = 0
    · simp [h]
    · simp only [h, ite_false]
      rw [ih (n / 10) (Nat.digitChar (n % 10) :: ds), ih (n / 10) [Nat.digitChar (n % 10)]]
      simp

theorem toDigitsCore_fuel10 : ∀ (n f1 f2 : ℕ), n < f1 → n < f2 →
    Nat.toDigitsCore 10 f1 n [] = Nat.toDigitsCore 10 f2 n [] := by
  intro n
  induction n using Nat.strong_induction_on with
  | _ n ih =>
    intro f1 f2 h1 h2
    match f1, h1 with
    | g1 + 1, _ =>
    match f2, h2 with
    | g2 + 1, _ =>
    simp only [Nat.toDigitsCore]
    by_cases h : n / 10 = 0
    · simp [h]
    · simp only [h, ite_false]
      have hpos : 0 < n := by
        rcases Nat.eq_zero_or_pos n with hz | hp
        · exact absurd (by simp [hz]) h
        · exact hp
      have hd : n / 10 < n := Nat.div_lt_self hpos (by norm_num)
      rw [toDigitsCore_append10 g1, toDigitsCore_append10 g2]
      rw [ih (n / 10) hd g1 g2 (by omega) (by omega)]

theorem digitChar_toNat_sub (m : ℕ) (h : m < 10) :
    (Nat.digitChar m).toNat - ('0').toNat = m := by
  interval_cases m <;> rfl

theorem digitsVal_toDigits10 : ∀ n : ℕ, digitsVal (Nat.toDigits 10 n) = n := by
  intro n
  induction n using Nat.strong_induction_on with
  | _ n ih =>
    unfold Nat.toDigits
    simp only [Nat.toDigitsCore]
    by_cases h : n / 10 = 0
    · simp only [h, ite_true]
      have h10 : n < 10 := by omega
      have hone : digitsVal [Nat.digitChar (n % 10)] =
          0 * 10 + ((Nat.digitChar (n % 10)).toNat - ('0').toNat) := rfl
      rw [hone, digitChar_toNat_sub (n % 10) (Nat.mod_lt n (by norm_num))]
      omega
    · simp only [h, ite_false]
      have hpos : 0 < n := by
        rcases Nat.eq_zero_or_pos n with hz | hp
        · exact absurd (by simp [hz]) h
        · exact hp
      have hd : n / 10 < n := Nat.div_lt_self hpos (by norm_num)
      rw [toDigitsCore_append10]
      rw [toDigitsCore_fuel10 (n / 10) n (n / 10 + 1) (by omega) (by omega)]
      have hrec : Nat.toDigitsCore 10 (n / 10 + 1) (n / 10) [] = Nat.toDigits 10 (n / 10) := rfl
      rw [hrec]
      unfold digitsVal
      rw [List.foldl_append]
      have hfold : List.foldl (fun a c => a * 10 + (c.toNat - ('0').toNat)) 0
          (Nat.toDigits 10 (n / 10)) = n / 10 := ih (n / 10) hd
      rw [hfold]
      simp only [List.foldl]
      rw [digitChar_toNat_sub (n % 10) (Nat.mod_lt n (by norm_num))]
      omega

theorem natRepr_inj (m n : ℕ) (h : Nat.repr m = Nat.repr n) : m = n := by
  have hd : Nat.toDigits 10 m = Nat.toDigits 10 n := by
    have hdata := congrArg String.data h
    simpa [Nat.repr, List.asString] using hdata
  calc m = digitsVal (Nat.toDigits 10 m) := (digitsVal_toDigits10 m).symm
    _ = digitsVal (Nat.toDigits 10 n) := by rw [hd]
    _ = n := digitsVal_toDigits10 n

theorem mkId_inj (side : String) (i j : ℕ)
    (h : side ++ ("-") ++ Nat.repr i = side ++ ("-") ++ Nat.repr j) : i = j := by
  apply natRepr_inj
  have hdata := congrArg String.data h
  simp only [String.data_append, List.append_assoc] at hdata
  exact String.ext (List.append_cancel_left (List.append_cancel_left hdata))

theorem mkId_cross (i j : ℕ) :
    ("A") ++ ("-") ++ Nat.repr i ≠ ("B") ++ ("-") ++ Nat.repr j := by
  intro h
  have hdata := congrArg String.data h
  simp [String.data_append] at hdata

theorem processFile_id (env : FsEnv) (c : Cache) (p side : String) (i : ℕ) (f : String) :
    (processFile env c p side i f).1.id = side ++ ("-") ++ Nat.repr i := by
  unfold processFile
  dsimp only
  split
  · rfl
  · split <;> rfl

theorem processFile_trackNumber (env : FsEnv) (c : Cache) (p side : String) (i : ℕ) (f : String) :
    (processFile env c p side i f).1.trackNumber = i + 1 := by
  unfold processFile
  dsimp only
  split
  · rfl
  · split <;> rfl

theorem processFile_filename (env : FsEnv) (c : Cache) (p side : String) (i : ℕ) (f : String) :
    (processFile env c p side i f).1.filename = f := by
  unfold processFile
  dsimp only
  split
  · rfl
  · split <;> rfl

theorem scanGo_pairs (env : FsEnv) (p side : String) :
    ∀ (fs : List String) (i : ℕ) (c : Cache),
      ((scanGo env p side i fs c).1).map (fun t => (t.id, t.trackNumber)) =
        ((List.enumFrom i fs).filter (fun pr => isAudio pr.2)).map
          (fun pr => (side ++ ("-") ++ Nat.repr pr.1, pr.1 + 1)) := by
  intro fs
  induction fs with
  | nil => intro i c; rfl
  | cons f fs ih =>
    intro i c
    by_cases h : isAudio f
    · simp [scanGo, h, List.filter_cons, processFile_id, processFile_trackNumber, ih]
    · simp [scanGo, h, List.filter_cons, ih]

theorem scanGo_ids (env : FsEnv) (p side : String) (fs : List String) (i : ℕ) (c : Cache) :
    ((scanGo env p side i fs c).1).map Track.id =
      ((List.enumFrom i fs).filter (fun pr => isAudio pr.2)).map
        (fun pr => side ++ ("-") ++ Nat.repr pr.1) := by
  have hp := congrArg (List.map Prod.fst) (scanGo_pairs env p side fs i c)
  simpa [List.map_map, Function.comp] using hp

theorem scanGo_filenames (env : FsEnv) (p side : String) :
    ∀ (fs : List String) (i : ℕ) (c : Cache),
      ((scanGo env p side i fs c).1).map Track.filename = fs.filter (fun g => isAudio g) := by
  intro fs
  induction fs with
  | nil => intro i c; rfl
  | cons f fs ih =>
    intro i c
    by_cases h : isAudio f
    · simp [scanGo, h, List.filter_cons, processFile_filename, ih]
    · simp [scanGo, h, List.filter_cons, ih]

/-- C1 counterexample: on the listing `["01_song.mp3", "notes.txt",
"02-track.mp3"]` the scan assigns ids "A-0" and "A-2" and ordinals 1 and
3 — the loop index runs over the raw listing, the skipped `notes.txt`
still advancing it — while the claim's filtered-position assignment
(`specFilteredIds`, modelled from the spec) predicts ids "A-0","A-1". -/
theorem getSongs_filtered_position_cex_c1 :
    ((getSongsFromFolder envNoTags (some (["01_song.mp3", "notes.txt", "02-track.mp3"]))
        ("musics/side a") ("A") []).1).map Track.id = [("A-0"), ("A-2")] ∧
    specFilteredIds (["01_song.mp3", "notes.txt", "02-track.mp3"]) ("A") = [("A-0"), ("A-1")] ∧
    ((getSongsFromFolder envNoTags (some (["01_song.mp3", "notes.txt", "02-track.mp3"]))
        ("musics/side a") ("A") []).1).map Track.id ≠
      specFilteredIds (["01_song.mp3", "notes.txt", "02-track.mp3"]) ("A") ∧
    ((getSongsFromFolder envNoTags (some (["01_song.mp3", "notes.txt", "02-track.mp3"]))
        ("musics/side a") ("A") []).1).map Track.trackNumber = [1, 3] := by
  exact ⟨rfl, rfl, by decide, rfl⟩

/-- C1 (amended): each returned track's id is `"{side}-{i}"` and its
ordinal is `i + 1` where `i` is the track's 0-based position in the RAW
directory listing (skipped non-audio entries still advance the index),
not in the filtered list; on listings that are all audio the two
coincide, and the spec's example listing yields ids "A-0","A-1" with
ordinals 1,2 and titles "01 song","02 track". -/
theorem getSongs_ids_raw_index_c1 :
    ∀ (env : FsEnv) (files : List String) (p side : String) (c : Cache),
      ((getSongsFromFolder env (some files) p side c).1).map (fun t => (t.id, t.trackNumber)) =
        (files.enum.filter (fun pr => isAudio pr.2)).map
          (fun pr => (side ++ ("-") ++ Nat.repr pr.1, pr.1 + 1)) ∧
      ((getSongsFromFolder envNoTags (some (["01_song.mp3", "02-track.mp3"]))
          ("musics/side a") ("A") []).1).map (fun t => (t.id, t.title, t.trackNumber)) =
        [(("A-0"), ("01 song"), 1), (("A-1"), ("02 track"), 2)] := by
  intro env files p side c
  constructor
  · simpa [getSongsFromFolder, List.enum] using scanGo_pairs env p side files 0 c
  · rfl

theorem getSongs_ids_eq (env : FsEnv) (listing : Option (List String))
    (p side : String) (c : Cache) :
    ((getSongsFromFolder env listing p side c).1).map Track.id = idsOfListing listing side := by
  cases listing with
  | none => rfl
  | some files => exact scanGo_ids env p side files 0 c

theorem idsOfListing_nodup (listing : Option (List String)) (side : String) :
    (idsOfListing listing side).Nodup := by
  cases listing with
  | none => exact List.nodup_nil
  | some files =>
    have hcomp : idsOfListing (some files) side =
        (((List.enumFrom 0 files).filter (fun pr => isAudio pr.2)).map Prod.fst).map
          (fun i => side ++ ("-") ++ Nat.repr i) := by
      simp [idsOfListing, List.map_map, Function.comp]
    rw [hcomp]
    apply List.Nodup.map
    · intro a b hab
      exact mkId_inj side a b hab
    · have hsub : List.Sublist
          (((List.enumFrom 0 files).filter (fun pr => isAudio pr.2)).map Prod.fst)
          ((List.enumFrom 0 files).map Prod.fst) :=
        List.Sublist.map _ (List.filter_sublist _)
      have hrange : (List.enumFrom 0 files).map Prod.fst = List.range files.length := by
        simpa [List.enum] using List.enum_map_fst files
      rw [hrange] at hsub
      exact (List.nodup_range _).sublist hsub

theorem idsOfListing_disjoint (lA lB : Option (List String)) :
    List.Disjoint (idsOfListing lA ("A")) (idsOfListing lB ("B")) := by
  intro a haA haB
  cases lA with
  | none => simp [idsOfListing] at haA
  | some filesA =>
    cases lB with
    | none => simp [idsOfListing] at haB
    | some filesB =>
      obtain ⟨prA, _, hA⟩ := List.mem_map.1 haA
      obtain ⟨prB, _, hB⟩ := List.mem_map.1 haB
      exact mkId_cross prA.1 prB.1 (hA.trans hB.symm)

/-- C7: in every combined scan the track ids of side A and side B are
pairwise distinct, and two scans of the same directory listings — with
any cache contents and any tag-parsing outcomes — assign the same ids in
the same order. -/
theorem loadMusicFiles_ids_c7 :
    ∀ (env env2 : FsEnv) (c c2 : Cache) (lA lB : Option (List String)),
      (((loadMusicFiles env lA lB c).1.1).map Track.id ++
        ((loadMusicFiles env lA lB c).1.2).map Track.id).Nodup ∧
      ((loadMusicFiles env lA lB c).1.1).map Track.id =
        ((loadMusicFiles env2 lA lB c2).1.1).map Track.id ∧
      ((loadMusicFiles env lA lB c).1.2).map Track.id =
        ((loadMusicFiles env2 lA lB c2).1.2).map Track.id := by
  intro env env2 c c2 lA lB
  have hA : ∀ (e : FsEnv) (cc : Cache),
      ((loadMusicFiles e lA lB cc).1.1).map Track.id = idsOfListing lA ("A") := by
    intro e cc
    exact getSongs_ids_eq e lA ("musics/side a") ("A") cc
  have hB : ∀ (e : FsEnv) (cc : Cache),
      ((loadMusicFiles e lA lB cc).1.2).map Track.id = idsOfListing lB ("B") := by
    intro e cc
    exact getSongs_ids_eq e lB ("musics/side b") ("B") _
  refine ⟨?_, by rw [hA, hA], by rw [hB, hB]⟩
  rw [hA, hB, List.nodup_append]
  exact ⟨idsOfListing_nodup lA ("A"), idsOfListing_nodup lB ("B"), idsOfListing_disjoint lA lB⟩

theorem cacheFind_insert (c : Cache) (k : String) (e : CacheEntry) :
    cacheFind (cacheInsert c k e) k = some e := by
  simp [cacheFind, cacheInsert]

theorem processFile_hit (env : FsEnv) (c : Cache) (p side : String) (i : ℕ) (f : String)
    (e : CacheEntry) (h : cacheFind c (p ++ ("/") ++ f) = some e) :
    processFile env c p side i f =
      ({ id := side ++ ("-") ++ Nat.repr i,
         title := strOr e.title (defaultTitle f),
         artist := strOr e.artist ("Unknown Artist"),
         album := strOr e.album ("Unknown Album"),
         filename := f,
         url := ("/musics/side ") ++ lowerStr side ++ ("/") ++ env.enc f,
         albumCover := e.albumCover,
         size := env.fsize (p ++ ("/") ++ f),
         trackNumber := i + 1 }, c) := by
  unfold processFile
  dsimp only
  rw [h]

theorem processFile_miss_err (env : FsEnv) (c : Cache) (p side : String) (i : ℕ) (f : String)
    (h : cacheFind c (p ++ ("/") ++ f) = none)
    (hp : env.parse (p ++ ("/") ++ f) = Except.error ()) :
    processFile env c p side i f =
      ({ id := side ++ ("-") ++ Nat.repr i,
         title := defaultTitle f,
         artist := ("Unknown Artist"),
         album := ("Unknown Album"),
         filename := f,
         url := ("/musics/side ") ++ lowerStr side ++ ("/") ++ env.enc f,
         albumCover := none,
         size := env.fsize (p ++ ("/") ++ f),
         trackNumber := i + 1 }, c) := by
  unfold processFile
  dsimp only
  rw [h, hp]

theorem processFile_miss_ok (env : FsEnv) (c : Cache) (p side : String) (i : ℕ) (f : String)
    (tags : Tags) (h : cacheFind c (p ++ ("/") ++ f) = none)
    (hp : env.parse (p ++ ("/") ++ f) = Except.ok tags) :
    processFile env c p side i f =
      ({ id := side ++ ("-") ++ Nat.repr i,
         title := optOr tags.title (defaultTitle f),
         artist := optOr tags.artist ("Unknown Artist"),
         album := optOr tags.album ("Unknown Album"),
         filename := f,
         url := ("/musics/side ") ++ lowerStr side ++ ("/") ++ env.enc f,
         albumCover := extractAlbumCover env.parse (p ++ ("/") ++ f) (side ++ ("-") ++ Nat.repr i),
         size := env.fsize (p ++ ("/") ++ f),
         trackNumber := i + 1 },
       cacheInsert c (p ++ ("/") ++ f)
         { title := optOr tags.title (defaultTitle f),
           artist := optOr tags.artist ("Unknown Artist"),
           album := optOr tags.album ("Unknown Album"),
           albumCover := extractAlbumCover env.parse (p ++ ("/") ++ f) (side ++ ("-") ++ Nat.repr i) }) := by
  unfold processFile
  dsimp only
  rw [h, hp]

theorem optOr_ne_empty (m : Option String) (d : String) (hd : d ≠ "") : optOr m d ≠ "" := by
  cases m with
  | none => simpa [optOr] using hd
  | some s =>
    by_cases hs : s = "" <;> simp [optOr, hs, hd]

theorem optOr_of_falsy (m : Option String) (d : String) (hm : optTruthy m = false) :
    optOr m d = d := by
  cases m with
  | none => rfl
  | some s =>
    simp [optTruthy] at hm
    simp [optOr, hm]

/-- C5: a scan that finds a cache entry for a file's path returns
exactly the stored title/artist/album/albumCover (given the invariant
`wfEntry` that every stored entry satisfies) and leaves the cache
untouched — the entry is reused verbatim, never partially overwritten,
and the result does not depend on the parser; a miss either stores the
whole entry exactly as returned or (on a parse error) stores nothing;
any entry present after a scan step is either pre-existing or
well-formed; and `POST /api/refresh` empties the entire cache before
rescanning, so its result never depends on the prior cache contents. -/
theorem metadataCache_verbatim_c5 :
    ∀ (env : FsEnv) (c : Cache) (p side : String) (i : ℕ) (f : String) (e : CacheEntry),
      (cacheFind c (p ++ ("/") ++ f) = some e → wfEntry e f →
        processFile env c p side i f =
          ({ id := side ++ ("-") ++ Nat.repr i, title := e.title, artist := e.artist,
             album := e.album, filename := f,
             url := ("/musics/side ") ++ lowerStr side ++ ("/") ++ env.enc f,
             albumCover := e.albumCover, size := env.fsize (p ++ ("/") ++ f),
             trackNumber := i + 1 }, c)) ∧
      (cacheFind c (p ++ ("/") ++ f) = none →
        (cacheFind (processFile env c p side i f).2 (p ++ ("/") ++ f) =
            some { title := (processFile env c p side i f).1.title,
                   artist := (processFile env c p side i f).1.artist,
                   album := (processFile env c p side i f).1.album,
                   albumCover := (processFile env c p side i f).1.albumCover } ∨
          (processFile env c p side i f).2 = c)) ∧
      (∀ e2, cacheFind (processFile env c p side i f).2 (p ++ ("/") ++ f) = some e2 →
        cacheFind c (p ++ ("/") ++ f) = some e2 ∨ wfEntry e2 f) ∧
      (∀ (lA lB : Option (List String)) (c2 : Cache),
        refreshHandler env lA lB c = refreshHandler env lA lB c2) := by
  intro env c p side i f e
  refine ⟨?_, ?_, ?_, fun lA lB c2 => rfl⟩
  · intro h hw
    rw [processFile_hit env c p side i f e h]
    have h1 : strOr e.title (defaultTitle f) = e.title := by
      rcases hw.1 with hne | hdt
      · simp [strOr, hne]
      · by_cases ht : e.title = ""
        · simp [strOr, ht, hdt]
        · simp [strOr, ht]
    have h2 : strOr e.artist ("Unknown Artist") = e.artist := by simp [strOr, hw.2.1]
    have h3 : strOr e.album ("Unknown Album") = e.album := by simp [strOr, hw.2.2]
    rw [h1, h2, h3]
  · intro h
    cases hp : env.parse (p ++ ("/") ++ f) with
    | error u =>
      right
      rw [processFile_miss_err env c p side i f h hp]
    | ok tags =>
      left
      rw [processFile_miss_ok env c p side i f tags h hp]
      exact cacheFind_insert c (p ++ ("/") ++ f) _
  · intro e2 he2
    cases hc : cacheFind c (p ++ ("/") ++ f) with
    | some e0 =>
      left
      rw [processFile_hit env c p side i f e0 hc] at he2
      exact hc.symm.trans he2
    | none =>
      right
      cases hp : env.parse (p ++ ("/") ++ f) with
      | error u =>
        rw [processFile_miss_err env c p side i f hc hp] at he2
        rw [hc] at he2
        cases he2
      | ok tags =>
        rw [processFile_miss_ok env c p side i f tags hc hp] at he2
        rw [cacheFind_insert] at he2
        cases he2
        refine ⟨?_, optOr_ne_empty _ _ (by decide), optOr_ne_empty _ _ (by decide)⟩
        by_cases hd : defaultTitle f = ""
        · exact Or.inr hd
        · exact Or.inl (optOr_ne_empty _ _ hd)

/-- C6: for an audio file whose tag parse fails, the scan still returns
a track — the error never reaches the caller — with the filename-derived
default title (extension stripped, underscores and dashes replaced by
spaces, trimmed), artist "Unknown Artist" and album "Unknown Album" and
no cover; when the parse succeeds but a tag is missing or empty, the
same fallback applies to that tag; and a track is produced for every
audio entry of the listing regardless of parse outcomes. -/
theorem parse_failure_fallback_c6 :
    ∀ (env : FsEnv) (c : Cache) (p side : String) (i : ℕ) (f : String),
      (cacheFind c (p ++ ("/") ++ f) = none → env.parse (p ++ ("/") ++ f) = Except.error () →
        processFile env c p side i f =
          ({ id := side ++ ("-") ++ Nat.repr i, title := defaultTitle f,
             artist := ("Unknown Artist"), album := ("Unknown Album"), filename := f,
             url := ("/musics/side ") ++ lowerStr side ++ ("/") ++ env.enc f,
             albumCover := none, size := env.fsize (p ++ ("/") ++ f),
             trackNumber := i + 1 }, c)) ∧
      (∀ tags : Tags, cacheFind c (p ++ ("/") ++ f) = none →
        env.parse (p ++ ("/") ++ f) = Except.ok tags →
        (optTruthy tags.title = false → (processFile env c p side i f).1.title = defaultTitle f) ∧
        (optTruthy tags.artist = false →
          (processFile env c p side i f).1.artist = ("Unknown Artist")) ∧
        (optTruthy tags.album = false →
          (processFile env c p side i f).1.album = ("Unknown Album"))) ∧
      (∀ (fs : List String) (j : ℕ),
        ((scanGo env p side j fs c).1).map Track.filename = fs.filter (fun g => isAudio g)) := by
  intro env c p side i f
  refine ⟨processFile_miss_err env c p side i f, ?_, fun fs j => scanGo_filenames env p side fs j c⟩
  intro tags h hp
  rw [processFile_miss_ok env c p side i f tags h hp]
  exact ⟨fun ht => optOr_of_falsy _ _ ht, fun ha => optOr_of_falsy _ _ ha,
    fun hl => optOr_of_falsy _ _ hl⟩

/-- C2 counterexample: the `GET /api/health` handler has no try/catch,
so when the awaited scan fails it produces no HTTP response at all — the
failure escapes the handler instead of being converted to an error
response, contradicting the claim that every route catches failures. -/
theorem healthRoute_uncaught_cex_c2 :
    healthRoute ("2026-10-12T00:00:00Z") (Except.error ()) = none := by
  rfl

/-- C2 (amended): every asynchronous route except `GET /api/health`
catches a scan failure and converts it into an HTTP 500 error response
(and produces a response on every input), while the `GET /api/health`
handler, which has no try/catch, produces no response whenever the scan
fails. -/
theorem handlers_catch_failures_c2 :
    ∀ (now sideParam : String) (scan : Except Unit (List Track × List Track)),
      (playlistsRoute scan).isSome = true ∧
      (sideRoute sideParam scan).isSome = true ∧
      (refreshRoute scan).isSome = true ∧
      (∀ u, playlistsRoute (Except.error u) =
        some (500, PlaylistsResp.err ("Failed to load playlists"))) ∧
      (∀ u, sideRoute sideParam (Except.error u) =
        some (500, SideResp.err ("Failed to load side"))) ∧
      (∀ u, refreshRoute (Except.error u) =
        some (500, RefreshResp.err ("Failed to refresh playlists"))) ∧
      (∀ u, healthRoute now (Except.error u) = none) := by
  intro now sideParam scan
  refine ⟨?_, ?_, ?_, fun u => rfl, fun u => rfl, fun u => rfl, fun u => rfl⟩
  · cases scan <;> rfl
  · cases scan with
    | error u => rfl
    | ok pl =>
      simp only [sideRoute]
      by_cases hA : upperStr sideParam = "A"
      · simp [hA]
      · by_cases hB : upperStr sideParam = "B" <;> simp [hA, hB]
  · cases scan <;> rfl

/-- C8: in the player, while tape mode is active and a track is playing,
`switchSide` changes nothing at all — side, track index and every other
modelled playback field are untouched; when not both hold, it sets the
requested side and resets the track index to 0 (leaving the play state
and playlists as they were). -/
theorem switchSide_blocked_c8 :
    ∀ (st : PlayerState) (side : String),
      (st.tapeMode = true ∧ st.isPlaying = true → switchSide st side = st) ∧
      (¬(st.tapeMode = true ∧ st.isPlaying = true) →
        (switchSide st side).currentSide = side ∧
        (switchSide st side).currentTrackIndex = 0 ∧
        (switchSide st side).isPlaying = st.isPlaying ∧
        (switchSide st side).tapeMode = st.tapeMode ∧
        (switchSide st side).sideATracks = st.sideATracks ∧
        (switchSide st side).sideBTracks = st.sideBTracks) := by
  intro st side
  constructor
  · intro h
    simp [switchSide, h.1, h.2]
  · intro h
    have hb : (st.tapeMode && st.isPlaying) = false := by
      cases htm : st.tapeMode <;> cases hip : st.isPlaying <;> simp_all
    simp only [switchSide, hb, Bool.false_eq_true, if_false]
    unfold loadTrack
    split_ifs <;> simp [getCurrentPlaylist]

end TapePlayer
